import Mathlib

/-!
Verification of the BIXI station-snapshot builder (`data_fetch.py` together
with the feed table of `config.py`).

The Python module is embedded shallowly:

* a pandas cell is a `Value` (number, string, boolean, or NaN/None, written
  `Value.null`);
* a pandas `DataFrame` is a column-name list together with rows represented
  as association lists from column name to `Value` (lookups take the first
  matching entry, so prepending an entry models a pandas column assignment,
  which overwrites the column);
* a JSON payload is a `Json` tree whose leaves are `Value`s;
* the effectful parts (HTTP transport, file writes) are an explicit `Env`;
  a Python call either returns a value or raises, modelled by `Outcome`.
-/

namespace Bixi

/-- A scalar cell value of a payload or table.  `null` stands for both JSON
`null` and pandas `NaN`. -/
inductive Value where
  | num (q : ℚ)
  | str (s : String)
  | bool (b : Bool)
  | null
  deriving DecidableEq, Repr

/-- Python truthiness of a scalar. -/
def Value.truthy : Value → Bool
  | .num q => decide (q ≠ 0)
  | .str s => decide (s ≠ "")
  | .bool b => b
  | .null => false

/-- Parse a run of decimal digits; `none` when empty or a non-digit occurs.
Used to model the numeric strings accepted by `pd.to_numeric`. -/
def parseDigits (cs : List Char) : Option ℕ :=
  if cs.isEmpty then none
  else cs.foldl (fun acc c =>
    acc.bind (fun n => if c.isDigit then some (n * 10 + (c.toNat - 48)) else none))
    (some 0)

/-- Drop leading whitespace from a character list. -/
def dropSpaces : List Char → List Char
  | [] => []
  | c :: cs => if c.isWhitespace then dropSpaces cs else c :: cs

/-- Strip whitespace from both ends of a character list. -/
def trimChars (cs : List Char) : List Char :=
  (dropSpaces (dropSpaces cs).reverse).reverse

/-- Peel an optional leading sign; returns whether the value is negated. -/
def parseSign : List Char → Bool × List Char
  | '-' :: cs => (true, cs)
  | '+' :: cs => (false, cs)
  | cs => (false, cs)

/-- Split a character list on a separator (like `str.split`). -/
def splitOnChar (sep : Char) : List Char → List (List Char)
  | [] => [[]]
  | c :: cs =>
    let r := splitOnChar sep cs
    if c = sep then [] :: r
    else
      match r with
      | [] => [[c]]
      | h :: t => (c :: h) :: t

/-- Parse an optionally signed decimal literal (`"3"`, `"-73.5"`, `".5"`) as
a rational; `none` on anything else (e.g. `"N/A"`).  This models which
strings `pd.to_numeric` parses and which it coerces to `NaN`. -/
def parseRat (s : String) : Option ℚ :=
  let cs := trimChars s.data
  let (neg, body) := parseSign cs
  let signed : ℚ → ℚ := fun q => if neg then -q else q
  match splitOnChar '.' body with
  | [intPart] => (parseDigits intPart).map (fun n => signed n)
  | [intPart, fracPart] =>
    if intPart.isEmpty && fracPart.isEmpty then none
    else
      match (if intPart.isEmpty then some 0 else parseDigits intPart),
            (if fracPart.isEmpty then some 0 else parseDigits fracPart) with
      | some a, some b =>
        some (signed ((a : ℚ) + (b : ℚ) / (10 : ℚ) ^ fracPart.length))
      | _, _ => none
  | _ => none

/-- `pd.to_numeric(v, errors='coerce')` followed by `.fillna(0)`: numbers
stay, numeric strings are parsed, booleans become 0/1, everything else
(including NaN/None) becomes 0. -/
def coerceNum : Value → ℚ
  | .num q => q
  | .str s => (parseRat s).getD 0
  | .bool b => if b then 1 else 0
  | .null => 0

/-- A table row: an association list from column name to cell value.  The
first entry for a name wins, so prepending models column assignment. -/
def Row : Type := List (String × Value)

instance : DecidableEq Row := inferInstanceAs (DecidableEq (List (String × Value)))

instance : Membership (String × Value) Row := inferInstanceAs (Membership _ (List (String × Value)))

/-- Look a column up in a row (`row['c']` when the cell exists). -/
def Row.get (r : Row) (c : String) : Option Value :=
  List.lookup c r

/-- The cell of `r` at column `c`, with a missing cell read as pandas `NaN`. -/
def colVal (r : Row) (c : String) : Value :=
  (r.get c).getD Value.null

/-- The numeric cell of `r` at column `c`; only used on columns that have
just been coerced to numbers. -/
def numAt (r : Row) (c : String) : ℚ :=
  match r.get c with
  | some (.num q) => q
  | _ => 0

/-- A pandas `DataFrame`: named columns plus rows keyed by column name.  The
row association lists are the cells; `cols` records which columns exist
(`'c' in df.columns`). -/
structure DataFrame where
  cols : List String
  rows : List Row
  deriving DecidableEq

/-- `pd.DataFrame()`. -/
def DataFrame.mk0 : DataFrame := ⟨[], []⟩

/-- `df.empty`: true when the frame has no rows or no columns. -/
def DataFrame.isEmpty (df : DataFrame) : Bool :=
  df.rows.isEmpty || df.cols.isEmpty

/-- `'c' in df.columns`. -/
def DataFrame.hasCol (df : DataFrame) (c : String) : Bool :=
  df.cols.contains c

/-- `df['c'] = <f(row)>`: column assignment.  The new cell is prepended to
each row so that it shadows any earlier entry, matching overwrite semantics;
the column name is appended to `cols` when new. -/
def DataFrame.setCol (df : DataFrame) (c : String) (f : Row → Value) : DataFrame :=
  { cols := if df.cols.contains c then df.cols else df.cols ++ [c]
    rows := df.rows.map (fun r => (c, f r) :: r) }

/-- A parsed JSON document, as returned by `response.json()`.  Scalars are
`Value`s; JSON `null` is `prim Value.null`. -/
inductive Json where
  | obj (fields : List (String × Json))
  | arr (elems : List Json)
  | prim (v : Value)

/-- JSON `null`, used as the default of guarded index operations. -/
def Json.nullJ : Json := .prim .null

/-- Python truthiness of a parsed payload: empty containers and falsy
scalars are falsy. -/
def Json.truthy : Json → Bool
  | .obj fs => !fs.isEmpty
  | .arr es => !es.isEmpty
  | .prim v => v.truthy

/-- Contiguous-substring test on character lists, for Python's
`'needle' in 'haystack'`. -/
def substringTest (needle : List Char) : List Char → Bool
  | [] => needle.isEmpty
  | c :: t => List.isPrefixOf needle (c :: t) || substringTest needle t

/-- A raised Python exception, as far as this module distinguishes them. -/
inductive PyErr where
  | valueError (msg : String)
  | osError (msg : String)
  | keyError (k : String)
  | typeError (msg : String)
  deriving DecidableEq

/-- Result of running a Python call: a returned value or a raised
exception. -/
inductive Outcome (α : Type) where
  | raised (e : PyErr)
  | returned (v : α)

/-- Python `'k' in j`: key test on a dict, element test on a list (a string
element equal to `k`; no other JSON value compares equal to a string),
substring test on a string, and a `TypeError` on non-iterable scalars. -/
def Json.member (j : Json) (k : String) : Outcome Bool :=
  match j with
  | .obj fs => .returned ((fs.map Prod.fst).contains k)
  | .arr es => .returned (es.any (fun e =>
      match e with
      | .prim (.str s) => s == k
      | _ => false))
  | .prim (.str s) => .returned (substringTest k.data s.data)
  | .prim _ => .raised (.typeError "argument is not iterable")

/-- Python `j['k']`: dict lookup (`KeyError` when absent); indexing a list
or a string with a string key raises `TypeError`, as does indexing a
scalar. -/
def Json.index (j : Json) (k : String) : Outcome Json :=
  match j with
  | .obj fs =>
    match List.lookup k fs with
    | some v => .returned v
    | none => .raised (.keyError k)
  | _ => .raised (.typeError "indices must be integers")

/-- The scalar stored in a table cell for a JSON leaf.  Nested objects or
arrays inside a station entry are outside the GBFS station-list contract;
they are read as missing data. -/
def Json.toVal : Json → Value
  | .prim v => v
  | _ => .null

/-- One station entry (a JSON object) as a table row. -/
def rowOfJson : Json → Row
  | .obj fs => fs.map (fun p => (p.1, p.2.toVal))
  | _ => []

/-- Accumulate column names in first-appearance order, as
`pd.DataFrame(list_of_dicts)` does. -/
def unionCols (acc : List String) (ks : List String) : List String :=
  ks.foldl (fun a k => if a.contains k then a else a ++ [k]) acc

/-- Column list of a list of dict-shaped rows. -/
def dictsCols (rows : List Row) : List String :=
  rows.foldl (fun a r => unionCols a (r.map Prod.fst)) []

/-- Length of a dict value that is an array; `none` for scalars (which
`pd.DataFrame(dict)` broadcasts). -/
def colLen : Json → Option ℕ
  | .arr es => some es.length
  | _ => none

/-- Cell `i` of a dict-of-arrays column; scalar values broadcast. -/
def cellAt (v : Json) (i : ℕ) : Value :=
  match v with
  | .arr es => (es.getD i Json.nullJ).toVal
  | _ => v.toVal

/-- `pd.DataFrame(dict)`: columns from the dict's keys.  All-scalar dicts
and arrays of differing lengths raise `ValueError`; scalars alongside at
least one array broadcast.  (Nested dict values, which pandas aligns on the
inner keys, are outside the feed shapes this model distinguishes and are
read as broadcast scalars.) -/
def dictToDataFrame (fs : List (String × Json)) : Outcome DataFrame :=
  if fs.isEmpty then .returned DataFrame.mk0
  else
    match fs.filterMap (fun p => colLen p.2) with
    | [] => .raised (.valueError "If using all scalar values, you must pass an index")
    | n :: rest =>
      if rest.all (fun m => m == n) then
        .returned { cols := fs.map Prod.fst
                    rows := (List.range n).map (fun i =>
                      fs.map (fun p => (p.1, cellAt p.2 i))) }
      else .raised (.valueError "All arrays must be of the same length")

/-- `pd.DataFrame(x)` for the extracted `data.stations` value: a list of
dicts becomes the station frame, a dict becomes a columns-from-dict frame,
`None` an empty frame, and any other scalar raises `ValueError`. -/
def jsonToDataFrame (j : Json) : Outcome DataFrame :=
  match j with
  | .arr es => .returned { cols := dictsCols (es.map rowOfJson), rows := es.map rowOfJson }
  | .obj fs => dictToDataFrame fs
  | .prim .null => .returned DataFrame.mk0
  | .prim _ => .raised (.valueError "DataFrame constructor not properly called")

/-- Result of one HTTP GET: a parsed 2xx body, or one of the failure modes
(`requests` raises a `RequestException` subclass for each). -/
inductive NetResult where
  | success (body : Json)
  | connError (msg : String)
  | timeout
  | httpError (code : ℕ)

/-- Is the transport outcome one of the failure modes? -/
def NetResult.fails : NetResult → Bool
  | .success _ => false
  | _ => true

/-- The ambient effects of `BIXIDataFetcher`: the HTTP transport keyed by
URL, and whether the two kinds of file writes (raw JSON dump inside
`fetch_feed`, CSV dump inside `get_combined_station_data`) succeed. -/
structure Env where
  net : String → NetResult
  rawSaveOk : Bool
  csvSaveOk : Bool

/-- `config.BIXI_GBFS_BASE_URL`. -/
def BIXI_GBFS_BASE_URL : String := "https://gbfs.velobixi.com/gbfs"

/-- `config.BIXI_FEEDS`: the fixed table of known feeds. -/
def BIXI_FEEDS : List (String × String) :=
  [("station_information", "/en/station_information.json"),
   ("station_status", "/en/station_status.json"),
   ("system_information", "/en/system_information.json"),
   ("system_alerts", "/en/system_alerts.json"),
   ("vehicle_types", "/en/vehicle_types.json")]

/-- `BIXIDataFetcher.fetch_feed`.  Returns the call's outcome paired with
the number of network requests issued.  An unknown feed name raises
`ValueError` before any request; a transport failure is caught (the code
prints it) and `None` is returned; a failing raw-JSON dump raises, since
only `RequestException` is caught. -/
def fetch_feed (env : Env) (feed_name : String) : Outcome (Option Json) × ℕ :=
  match List.lookup feed_name BIXI_FEEDS with
  | none => (.raised (.valueError ("Unknown feed: " ++ feed_name)), 0)
  | some path =>
    match env.net (BIXI_GBFS_BASE_URL ++ path) with
    | .success body =>
      if env.rawSaveOk then (.returned (some body), 1)
      else (.raised (.osError "raw feed dump failed"), 1)
    | _ => (.returned none, 1)

/-- The guard `data and 'data' in data and 'stations' in data['data']`
followed, when it passes, by the extraction `data['data']['stations']`.
Python evaluates the conjunction left to right with short-circuiting, so a
containment test or an indexing step may itself raise.  `returned none`
means the guard evaluated to `False`; `returned (some s)` hands the
extracted stations value to `pd.DataFrame`. -/
def stationListOf (j : Json) : Outcome (Option Json) :=
  if j.truthy then
    match j.member "data" with
    | .raised e => .raised e
    | .returned false => .returned none
    | .returned true =>
      match j.index "data" with
      | .raised e => .raised e
      | .returned d =>
        match d.member "stations" with
        | .raised e => .raised e
        | .returned false => .returned none
        | .returned true =>
          match d.index "stations" with
          | .raised e => .raised e
          | .returned s => .returned (some s)
  else .returned none

/-- Common body of the two station-table builders. -/
def stationFrame (res : Outcome (Option Json)) : Outcome DataFrame :=
  match res with
  | .raised e => .raised e
  | .returned none => .returned DataFrame.mk0
  | .returned (some j) =>
    match stationListOf j with
    | .raised e => .raised e
    | .returned none => .returned DataFrame.mk0
    | .returned (some s) => jsonToDataFrame s

/-- `BIXIDataFetcher.get_station_information`. -/
def get_station_information (env : Env) : Outcome DataFrame :=
  stationFrame (fetch_feed env "station_information").1

/-- `BIXIDataFetcher.get_station_status`. -/
def get_station_status (env : Env) : Outcome DataFrame :=
  stationFrame (fetch_feed env "station_status").1

/-- Do two rows agree on the join key `station_id`?  pandas merge keys
compare NaN equal to NaN, so missing/NaN key cells match each other. -/
def joinMatch (ri rs : Row) : Bool :=
  decide (colVal ri "station_id" = colVal rs "station_id")

/-- Suffix renaming of a left (information) column: columns also present on
the right, other than the key, become `c + "_info"`. -/
def renameLeft (scols : List String) (c : String) : String :=
  if !(c == "station_id") && scols.contains c then c ++ "_info" else c

/-- Suffix renaming of a right (status) column already filtered to non-key
columns: collisions become `c + "_status"`. -/
def renameRight (icols : List String) (c : String) : String :=
  if icols.contains c then c ++ "_status" else c

/-- Drop the join-key entry from a row. -/
def dropKey (r : Row) : Row :=
  r.filter (fun p => !(p.1 == "station_id"))

/-- One merged row.  Pandas keeps the key column once; the key cell is put
at the head of the association list, which preserves every lookup. -/
def mergeRow (icols scols : List String) (ri rs : Row) : Row :=
  ("station_id", colVal ri "station_id") ::
    ((dropKey ri).map (fun p => (renameLeft scols p.1, p.2)) ++
     (dropKey rs).map (fun p => (renameRight icols p.1, p.2)))

/-- Column list of the merged frame: left columns (suffixed on collision),
then right non-key columns (suffixed on collision). -/
def mergeCols (icols scols : List String) : List String :=
  icols.map (renameLeft scols) ++
    (scols.filter (fun c => !(c == "station_id"))).map (renameRight icols)

/-- `info_df.merge(status_df, on='station_id', how='inner',
suffixes=('_info', '_status'))`.  pandas raises `KeyError` when the key
column is missing from either frame; otherwise the inner join itself never
fails. -/
def DataFrame.merge (info status : DataFrame) : Outcome DataFrame :=
  if info.hasCol "station_id" && status.hasCol "station_id" then
    .returned
      { cols := mergeCols info.cols status.cols
        rows := info.rows.flatMap (fun ri =>
          (status.rows.filter (fun rs => joinMatch ri rs)).map
            (fun rs => mergeRow info.cols status.cols ri rs)) }
  else .raised (.keyError "station_id")

/-- `if 'lon' not in combined.columns and 'longitude' in combined.columns:
combined['lon'] = combined['longitude']`. -/
def addLon (df : DataFrame) : DataFrame :=
  if !(df.hasCol "lon") && df.hasCol "longitude" then
    df.setCol "lon" (fun r => colVal r "longitude")
  else df

/-- The matching `lat` / `latitude` statement. -/
def addLat (df : DataFrame) : DataFrame :=
  if !(df.hasCol "lat") && df.hasCol "latitude" then
    df.setCol "lat" (fun r => colVal r "latitude")
  else df

/-- The two coordinate-normalization statements, in source order. -/
def normalize_coordinates (df : DataFrame) : DataFrame :=
  addLat (addLon df)

/-- The availability-metrics block: when both count columns exist, coerce
them to numbers (unparsable cells to 0), add `total_capacity` as their sum,
and add `utilization_rate` with the division-by-zero guard; otherwise leave
the frame untouched. -/
def compute_metrics (df : DataFrame) : DataFrame :=
  if df.hasCol "num_bikes_available" && df.hasCol "num_docks_available" then
    ((((df.setCol "num_bikes_available"
          (fun r => .num (coerceNum (colVal r "num_bikes_available")))).setCol
        "num_docks_available"
          (fun r => .num (coerceNum (colVal r "num_docks_available")))).setCol
      "total_capacity"
        (fun r => .num (numAt r "num_bikes_available" + numAt r "num_docks_available"))).setCol
    "utilization_rate"
      (fun r => .num (if 0 < numAt r "total_capacity" then
        numAt r "num_bikes_available" / numAt r "total_capacity" else 0)))
  else df

/-- `BIXIDataFetcher.get_combined_station_data`.  A raised builder error
propagates; a missing feed returns an empty frame without writing the CSV;
otherwise the combined frame is written to the CSV (a failing write raises,
there is no handler) and returned. -/
def get_combined_station_data (env : Env) : Outcome DataFrame :=
  match get_station_information env with
  | .raised e => .raised e
  | .returned info =>
    match get_station_status env with
    | .raised e => .raised e
    | .returned status =>
      if info.isEmpty || status.isEmpty then .returned DataFrame.mk0
      else
        match DataFrame.merge info status with
        | .raised e => .raised e
        | .returned merged =>
          let combined := compute_metrics (normalize_coordinates merged)
          if env.csvSaveOk then .returned combined
          else .raised (.osError "csv snapshot write failed")

/-- The join-key values of a frame's rows, NaN keys included (pandas
matches those with each other). -/
def stationIds (df : DataFrame) : List Value :=
  df.rows.map (fun r => colVal r "station_id")

/-! ### Concrete payloads and environments used as test inputs -/

/-- A well-formed station-information payload with one station. -/
def infoJ : Json :=
  .obj [("data", .obj [("stations", .arr
    [.obj [("station_id", .prim (.str "42")), ("name", .prim (.str "Parc")),
           ("lon", .prim (.num (-73))), ("lat", .prim (.num 45))]])])]

/-- A well-formed station-status payload for the same station. -/
def statusJ : Json :=
  .obj [("data", .obj [("stations", .arr
    [.obj [("station_id", .prim (.str "42")),
           ("num_bikes_available", .prim (.num 3)),
           ("num_docks_available", .prim (.num 7))]])])]

/-- A station-status payload whose entries lack `num_docks_available`. -/
def statusNoDocksJ : Json :=
  .obj [("data", .obj [("stations", .arr
    [.obj [("station_id", .prim (.str "42")),
           ("num_bikes_available", .prim (.num 3))]])])]

/-- URL of the station-information feed. -/
def urlInfo : String := BIXI_GBFS_BASE_URL ++ "/en/station_information.json"

/-- URL of the station-status feed. -/
def urlStatus : String := BIXI_GBFS_BASE_URL ++ "/en/station_status.json"

/-- A transport serving the two well-formed feeds. -/
def netGood : String → NetResult := fun u =>
  if u == urlInfo then .success infoJ
  else if u == urlStatus then .success statusJ
  else .timeout

/-- Environment where everything works. -/
def envGood : Env := { net := netGood, rawSaveOk := true, csvSaveOk := true }

/-- Environment whose transport always times out. -/
def envTimeout : Env := { net := fun _ => .timeout, rawSaveOk := true, csvSaveOk := true }

/-- Environment whose station-information payload has no `data` key. -/
def envNoData : Env :=
  { net := fun u => if u == urlInfo then .success (.obj [("last_updated", .prim (.num 1))])
      else .timeout
    rawSaveOk := true, csvSaveOk := true }

/-- Environment with healthy feeds but a failing CSV write. -/
def envCsvFail : Env := { net := netGood, rawSaveOk := true, csvSaveOk := false }

/-- Environment whose status feed lacks the dock-count column. -/
def envNoDocks : Env :=
  { net := fun u => if u == urlInfo then .success infoJ
      else if u == urlStatus then .success statusNoDocksJ
      else .timeout
    rawSaveOk := true, csvSaveOk := true }

/-- The frame parsed from `infoJ`. -/
def infoDF : DataFrame :=
  { cols := ["station_id", "name", "lon", "lat"]
    rows := [[("station_id", .str "42"), ("name", .str "Parc"),
              ("lon", .num (-73)), ("lat", .num 45)]] }

/-- The frame parsed from `statusJ`. -/
def statusDF : DataFrame :=
  { cols := ["station_id", "num_bikes_available", "num_docks_available"]
    rows := [[("station_id", .str "42"), ("num_bikes_available", .num 3),
              ("num_docks_available", .num 7)]] }

/-- The frame parsed from `statusNoDocksJ`. -/
def statusNoDocksDF : DataFrame :=
  { cols := ["station_id", "num_bikes_available"]
    rows := [[("station_id", .str "42"), ("num_bikes_available", .num 3)]] }

/-- An information payload whose only station is `"A"`. -/
def infoJA : Json :=
  .obj [("data", .obj [("stations", .arr
    [.obj [("station_id", .prim (.str "A")), ("name", .prim (.str "x"))]])])]

/-- A status payload whose only station is `"B"`. -/
def statusJB : Json :=
  .obj [("data", .obj [("stations", .arr
    [.obj [("station_id", .prim (.str "B")),
           ("num_bikes_available", .prim (.num 1)),
           ("num_docks_available", .prim (.num 2))]])])]

/-- Environment whose two feeds carry disjoint station identifiers. -/
def envDisjoint : Env :=
  { net := fun u => if u == urlInfo then .success infoJA
      else if u == urlStatus then .success statusJB
      else .timeout
    rawSaveOk := true, csvSaveOk := true }

/-- The frame parsed from `infoJA`. -/
def infoDFA : DataFrame :=
  { cols := ["station_id", "name"]
    rows := [[("station_id", .str "A"), ("name", .str "x")]] }

/-- The frame parsed from `statusJB`. -/
def statusDFB : DataFrame :=
  { cols := ["station_id", "num_bikes_available", "num_docks_available"]
    rows := [[("station_id", .str "B"), ("num_bikes_available", .num 1),
              ("num_docks_available", .num 2)]] }

/-- A two-column frame used to exercise the metrics block directly. -/
def dfCounts : DataFrame :=
  { cols := ["num_bikes_available", "num_docks_available"]
    rows := [[("num_bikes_available", .num 3), ("num_docks_available", .num 7)]] }

/-- A frame whose bike and dock counts are unparsable strings. -/
def dfNA : DataFrame :=
  { cols := ["num_bikes_available", "num_docks_available"]
    rows := [[("num_bikes_available", .str "N/A"), ("num_docks_available", .str "??")]] }

/-- A frame carrying only alternate-named coordinates. -/
def dfLongitude : DataFrame :=
  { cols := ["station_id", "longitude", "latitude"]
    rows := [[("station_id", .str "9"), ("longitude", .num (-73)), ("latitude", .num 45)]] }

/-- Two single-row frames with disjoint station identifiers. -/
def dfIdA : DataFrame :=
  { cols := ["station_id"], rows := [[("station_id", .str "A")]] }

/-- See `dfIdA`. -/
def dfIdB : DataFrame :=
  { cols := ["station_id"], rows := [[("station_id", .str "B")]] }

/-- A status payload whose single station entry lacks `station_id`. -/
def statusNoKeyJ : Json :=
  .obj [("data", .obj [("stations", .arr
    [.obj [("num_bikes_available", .prim (.num 1))]])])]

/-- The frame parsed from `statusNoKeyJ`: no `station_id` column. -/
def statusNoKeyDF : DataFrame :=
  { cols := ["num_bikes_available"]
    rows := [[("num_bikes_available", .num 1)]] }

/-- Environment whose status feed's entries carry no `station_id`. -/
def envNoKey : Env :=
  { net := fun u => if u == urlInfo then .success infoJ
      else if u == urlStatus then .success statusNoKeyJ
      else .timeout
    rawSaveOk := true, csvSaveOk := true }

/-- A station-information payload whose `data` key holds the list
`["stations"]`: the Python guard is `True` but the indexing raises. -/
def payloadListData : Json :=
  .obj [("data", .arr [.prim (.str "stations")])]

/-- Environment serving `payloadListData` on the information feed. -/
def envListData : Env :=
  { net := fun u => if u == urlInfo then .success payloadListData
      else .timeout
    rawSaveOk := true, csvSaveOk := true }

/-- The merged frame of `infoDF` and `statusDF`. -/
def mergedDF : DataFrame :=
  { cols := ["station_id", "name", "lon", "lat",
             "num_bikes_available", "num_docks_available"]
    rows := [[("station_id", .str "42"), ("name", .str "Parc"),
              ("lon", .num (-73)), ("lat", .num 45),
              ("num_bikes_available", .num 3), ("num_docks_available", .num 7)]] }

/-- The merged frame of `infoDF` and `statusNoDocksDF`. -/
def mergedNoDocksDF : DataFrame :=
  { cols := ["station_id", "name", "lon", "lat", "num_bikes_available"]
    rows := [[("station_id", .str "42"), ("name", .str "Parc"),
              ("lon", .num (-73)), ("lat", .num 45),
              ("num_bikes_available", .num 3)]] }

/-- The merged frame of `dfIdA` and `dfIdB`: no common key value. -/
def mergedAB : DataFrame :=
  { cols := ["station_id"], rows := [] }

/-- The merged frame of `infoDFA` and `statusDFB`: no common key value. -/
def mergedDisjointDF : DataFrame :=
  { cols := ["station_id", "name", "num_bikes_available", "num_docks_available"]
    rows := [] }

/-- The row `compute_metrics` produces from the single row of `dfCounts`. -/
def rowW : Row :=
  [("utilization_rate", .num (3 / 10)), ("total_capacity", .num 10),
   ("num_docks_available", .num 7), ("num_bikes_available", .num 3),
   ("num_bikes_available", .num 3), ("num_docks_available", .num 7)]

/-! ### Basic lemmas about the row and frame primitives -/

theorem Row.get_cons (k : String) (v : Value) (r : Row) (c : String) :
    Row.get ((k, v) :: r) c = if c == k then some v else Row.get r c := by
  simp only [Row.get, List.lookup]
  cases h : c == k <;> simp [h]

theorem Row.get_cons_self (k : String) (v : Value) (r : Row) :
    Row.get ((k, v) :: r) k = some v := by
  simp [Row.get_cons]

theorem Row.get_cons_ne (k : String) (v : Value) (r : Row) (c : String)
    (h : (c == k) = false) : Row.get ((k, v) :: r) c = Row.get r c := by
  simp [Row.get_cons, h]

theorem DataFrame.hasCol_setCol_self (df : DataFrame) (c : String) (f : Row → Value) :
    (df.setCol c f).hasCol c = true := by
  by_cases h : df.cols.contains c <;>
    simp_all [DataFrame.setCol, DataFrame.hasCol, List.contains, List.elem_eq_mem]

theorem DataFrame.hasCol_setCol_ne (df : DataFrame) (c : String) (f : Row → Value)
    (x : String) (h : x ≠ c) : (df.setCol c f).hasCol x = df.hasCol x := by
  by_cases hc : df.cols.contains c <;>
    simp_all [DataFrame.setCol, DataFrame.hasCol, List.contains, List.elem_eq_mem, h]

/-! ### The availability-metrics block -/

/-- Every row produced by the metrics block carries the coerced counts, their
sum as `total_capacity`, and the guarded ratio as `utilization_rate`. -/
theorem mem_compute_metrics_rows {df : DataFrame}
    (hb : df.hasCol "num_bikes_available" = true)
    (hd : df.hasCol "num_docks_available" = true)
    {r : Row} (hr : r ∈ (compute_metrics df).rows) :
    ∃ r0 ∈ df.rows,
      Row.get r "num_bikes_available" =
        some (.num (coerceNum (colVal r0 "num_bikes_available"))) ∧
      Row.get r "num_docks_available" =
        some (.num (coerceNum (colVal r0 "num_docks_available"))) ∧
      Row.get r "total_capacity" =
        some (.num (coerceNum (colVal r0 "num_bikes_available") +
                    coerceNum (colVal r0 "num_docks_available"))) ∧
      Row.get r "utilization_rate" =
        some (.num (if 0 < coerceNum (colVal r0 "num_bikes_available") +
                        coerceNum (colVal r0 "num_docks_available") then
          coerceNum (colVal r0 "num_bikes_available") /
            (coerceNum (colVal r0 "num_bikes_available") +
             coerceNum (colVal r0 "num_docks_available"))
          else 0)) := by
  simp only [compute_metrics, hb, hd, Bool.and_self, if_true, DataFrame.setCol,
    List.map_map, List.mem_map, Function.comp] at hr
  obtain ⟨r0, hr0, rfl⟩ := hr
  refine ⟨r0, hr0, ?_, ?_, ?_, ?_⟩ <;>
    simp [Row.get_cons, numAt, colVal]

/-- C1: in the merged table, `utilization_rate` is
`num_bikes_available / total_capacity` when `total_capacity` is positive and
exactly `0.0` otherwise, where `total_capacity` is the sum of the two
coerced counts. -/
theorem utilization_rate_formula (df : DataFrame)
    (hb : df.hasCol "num_bikes_available" = true)
    (hd : df.hasCol "num_docks_available" = true) :
    ∀ r ∈ (compute_metrics df).rows, ∃ b d : ℚ,
      Row.get r "num_bikes_available" = some (.num b) ∧
      Row.get r "num_docks_available" = some (.num d) ∧
      Row.get r "total_capacity" = some (.num (b + d)) ∧
      Row.get r "utilization_rate" =
        some (.num (if 0 < b + d then b / (b + d) else 0)) := by
  intro r hr
  obtain ⟨r0, -, h1, h2, h3, h4⟩ := mem_compute_metrics_rows hb hd hr
  exact ⟨_, _, h1, h2, h3, h4⟩

/-- C1 witness: the formula evaluated on a concrete one-station frame. -/
theorem utilization_rate_formula_witness :
    ∃ b d : ℚ,
      Row.get rowW "num_bikes_available" = some (.num b) ∧
      Row.get rowW "num_docks_available" = some (.num d) ∧
      Row.get rowW "total_capacity" = some (.num (b + d)) ∧
      Row.get rowW "utilization_rate" =
        some (.num (if 0 < b + d then b / (b + d) else 0)) :=
  utilization_rate_formula dfCounts rfl rfl rowW (by with_unfolding_all decide)

/-- C3: with non-negative (coerced) counts, the derived ratio lies in
`[0, 1]`. -/
theorem utilization_rate_bounds (df : DataFrame)
    (hb : df.hasCol "num_bikes_available" = true)
    (hd : df.hasCol "num_docks_available" = true) :
    ∀ r ∈ (compute_metrics df).rows, ∀ b d u : ℚ,
      Row.get r "num_bikes_available" = some (.num b) →
      Row.get r "num_docks_available" = some (.num d) →
      Row.get r "utilization_rate" = some (.num u) →
      0 ≤ b → 0 ≤ d → 0 ≤ u ∧ u ≤ 1 := by
  intro r hr b d u hgb hgd hgu hb0 hd0
  obtain ⟨r0, -, h1, h2, -, h4⟩ := mem_compute_metrics_rows hb hd hr
  have hbv : b = coerceNum (colVal r0 "num_bikes_available") := by
    have := hgb.symm.trans h1; simpa using this
  have hdv : d = coerceNum (colVal r0 "num_docks_available") := by
    have := hgd.symm.trans h2; simpa using this
  have huv : u = if 0 < b + d then b / (b + d) else 0 := by
    have := hgu.symm.trans h4
    rw [hbv, hdv]; simpa using this
  subst huv
  by_cases hpos : 0 < b + d
  · simp only [hpos, if_true]
    exact ⟨div_nonneg hb0 hpos.le,
      (div_le_one hpos).mpr (le_add_of_nonneg_right hd0)⟩
  · simp [hpos]

/-- C3 witness: the bounds instantiated on the concrete frame `dfCounts`. -/
theorem utilization_rate_bounds_witness : (0 : ℚ) ≤ 3 / 10 ∧ (3 : ℚ) / 10 ≤ 1 :=
  utilization_rate_bounds dfCounts rfl rfl rowW (by with_unfolding_all decide) 3 7 (3 / 10)
    (by with_unfolding_all decide) (by with_unfolding_all decide) (by with_unfolding_all decide) (by norm_num) (by norm_num)

/-- C7: the metrics block keeps every merged row, each input row's cells
reappear in its own output row as the coerced counts, and in the row whose
bike or dock cell is an unparsable string that cell becomes exactly 0. -/
theorem unparsable_counts_coerced_zero (df : DataFrame)
    (hb : df.hasCol "num_bikes_available" = true)
    (hd : df.hasCol "num_docks_available" = true) :
    (compute_metrics df).rows.length = df.rows.length ∧
    ∀ r0 ∈ df.rows, ∃ r ∈ (compute_metrics df).rows,
      Row.get r "num_bikes_available" =
        some (.num (coerceNum (colVal r0 "num_bikes_available"))) ∧
      Row.get r "num_docks_available" =
        some (.num (coerceNum (colVal r0 "num_docks_available"))) ∧
      (∀ s : String, colVal r0 "num_bikes_available" = Value.str s →
        parseRat s = none →
        Row.get r "num_bikes_available" = some (Value.num 0)) ∧
      (∀ s : String, colVal r0 "num_docks_available" = Value.str s →
        parseRat s = none →
        Row.get r "num_docks_available" = some (Value.num 0)) := by
  constructor
  · simp [compute_metrics, hb, hd, DataFrame.setCol]
  · intro r0 hr0
    simp only [compute_metrics, hb, hd, Bool.and_self, if_true, DataFrame.setCol,
      List.map_map, List.mem_map, Function.comp]
    refine ⟨_, ⟨r0, hr0, rfl⟩, ?_, ?_, ?_, ?_⟩
    · simp [Row.get_cons, colVal]
    · simp [Row.get_cons, colVal]
    · intro s hs hparse
      simp only [colVal] at hs
      simp [Row.get_cons, colVal, coerceNum, hs, hparse]
    · intro s hs hparse
      simp only [colVal] at hs
      simp [Row.get_cons, colVal, coerceNum, hs, hparse]

/-- C7 witness: the row holding the unparsable counts `"N/A"` and `"??"`
comes through with both cells coerced to 0. -/
theorem unparsable_counts_coerced_zero_witness :
    ∃ r ∈ (compute_metrics dfNA).rows,
      Row.get r "num_bikes_available" = some (Value.num 0) ∧
      Row.get r "num_docks_available" = some (Value.num 0) := by
  obtain ⟨r, hr, -, -, h3, h4⟩ :=
    (unparsable_counts_coerced_zero dfNA rfl rfl).2
      [("num_bikes_available", Value.str "N/A"), ("num_docks_available", Value.str "??")]
      (by with_unfolding_all decide)
  exact ⟨r, hr,
    h3 "N/A" (by with_unfolding_all decide) (by with_unfolding_all decide),
    h4 "??" (by with_unfolding_all decide) (by with_unfolding_all decide)⟩

/-! ### The feed retriever -/

/-- C9: a feed name outside `BIXI_FEEDS` makes `fetch_feed` raise (the
`ValueError` the spec taxonomy calls a configuration error) before any
network request: zero requests are issued. -/
theorem unknown_feed_rejected_before_network (env : Env) (feed : String)
    (h : List.lookup feed BIXI_FEEDS = none) :
    fetch_feed env feed =
      (.raised (.valueError ("Unknown feed: " ++ feed)), 0) := by
  simp [fetch_feed, h]

/-- C9 witness: the unknown feed name `"bogus"` with a live transport. -/
theorem unknown_feed_rejected_before_network_witness :
    List.lookup "bogus" BIXI_FEEDS = none ∧
    fetch_feed envGood "bogus" =
      (.raised (.valueError "Unknown feed: bogus"), 0) :=
  ⟨by with_unfolding_all rfl,
   unknown_feed_rejected_before_network envGood "bogus" (by with_unfolding_all rfl)⟩

/-- C4 counterexample: on a transport timeout the retriever does not raise
anything — so in particular it does not fail with a fetch error. -/
theorem fetch_feed_timeout_not_raised_cx :
    ¬ ∃ e : PyErr, (fetch_feed envTimeout "station_information").1 = .raised e := by
  intro h
  obtain ⟨e, he⟩ := h
  have hv : (fetch_feed envTimeout "station_information").1 = .returned none := by
    with_unfolding_all rfl
  rw [hv] at he
  exact Outcome.noConfusion he

/-- C4 as amended: on any transport failure (connection error, timeout, or
non-success status) the retriever catches the exception and returns `None`
after the single failed request, instead of raising. -/
theorem fetch_feed_network_error_returns_none (env : Env) (feed path : String)
    (hk : List.lookup feed BIXI_FEEDS = some path)
    (hf : (env.net (BIXI_GBFS_BASE_URL ++ path)).fails = true) :
    fetch_feed env feed = (.returned none, 1) := by
  simp only [fetch_feed, hk]
  cases hnet : env.net (BIXI_GBFS_BASE_URL ++ path) with
  | success body => rw [hnet] at hf; simp [NetResult.fails] at hf
  | connError m => simp [hnet]
  | timeout => simp [hnet]
  | httpError c => simp [hnet]

/-- C4 witness: a timing-out transport on the station-information feed. -/
theorem fetch_feed_network_error_returns_none_witness :
    List.lookup "station_information" BIXI_FEEDS =
      some "/en/station_information.json" ∧
    (envTimeout.net (BIXI_GBFS_BASE_URL ++ "/en/station_information.json")).fails = true ∧
    fetch_feed envTimeout "station_information" = (.returned none, 1) :=
  ⟨by with_unfolding_all rfl, rfl,
   fetch_feed_network_error_returns_none envTimeout "station_information"
     "/en/station_information.json" (by with_unfolding_all rfl) rfl⟩

/-! ### The station table builders -/

/-- C5 counterexample: a payload without the `data.stations` list does not
make the builder raise anything — so it does not fail with a
malformed-feed error. -/
theorem missing_station_list_not_raised_cx :
    ¬ ∃ e : PyErr, get_station_information envNoData = .raised e := by
  intro h
  obtain ⟨e, he⟩ := h
  have hv : get_station_information envNoData = .returned DataFrame.mk0 := by
    with_unfolding_all rfl
  rw [hv] at he
  exact Outcome.noConfusion he

/-- C5 as amended: when the builders' guard (`data and 'data' in data and
'stations' in data['data']`) evaluates to `False`, each station table
builder returns an empty frame and raises nothing; when a containment or
indexing step of that guard is ill-typed, the interpreter's `TypeError`
(not a `MalformedFeedError`) propagates out of the builder. -/
theorem missing_station_list_yields_empty (env : Env) (j : Json) :
    ((fetch_feed env "station_information").1 = .returned (some j) →
      stationListOf j = .returned none →
      get_station_information env = .returned DataFrame.mk0) ∧
    ((fetch_feed env "station_status").1 = .returned (some j) →
      stationListOf j = .returned none →
      get_station_status env = .returned DataFrame.mk0) ∧
    (∀ e : PyErr, (fetch_feed env "station_information").1 = .returned (some j) →
      stationListOf j = .raised e →
      get_station_information env = .raised e) := by
  refine ⟨?_, ?_, ?_⟩
  · intro hres hlist
    simp [get_station_information, stationFrame, hres, hlist]
  · intro hres hlist
    simp [get_station_status, stationFrame, hres, hlist]
  · intro e hres hlist
    simp [get_station_information, stationFrame, hres, hlist]

/-- C5 witness: a payload with no `data` key yields the empty frame; a
payload whose `data` key holds the list `["stations"]` passes the Python
guard and raises `TypeError` at the indexing. -/
theorem missing_station_list_yields_empty_witness :
    get_station_information envNoData = .returned DataFrame.mk0 ∧
    get_station_information envListData =
      .raised (.typeError "indices must be integers") :=
  ⟨(missing_station_list_yields_empty envNoData
      (.obj [("last_updated", .prim (.num 1))])).1
      (by with_unfolding_all rfl) (by with_unfolding_all rfl),
   (missing_station_list_yields_empty envListData payloadListData).2.2
      (.typeError "indices must be integers")
      (by with_unfolding_all rfl) (by with_unfolding_all rfl)⟩

/-! ### Persistence of the combined snapshot -/

/-- C6 counterexample: with healthy feeds but a failing CSV write, the
combined call does not return the in-memory table at all. -/
theorem csv_write_failure_table_lost_cx :
    ¬ ∃ df : DataFrame, get_combined_station_data envCsvFail = .returned df := by
  intro h
  obtain ⟨df, he⟩ := h
  have hv : get_combined_station_data envCsvFail =
      .raised (.osError "csv snapshot write failed") := by
    with_unfolding_all rfl
  rw [hv] at he
  exact Outcome.noConfusion he

/-- C6 as amended: once the feeds produce nonempty frames and the merge
succeeds, there is no handler around the CSV write, so a failing write makes
`get_combined_station_data` raise and the merged table is not returned. -/
theorem csv_write_failure_raises (env : Env) (info status merged : DataFrame)
    (hi : get_station_information env = .returned info)
    (hs : get_station_status env = .returned status)
    (hie : info.isEmpty = false) (hse : status.isEmpty = false)
    (hm : DataFrame.merge info status = .returned merged)
    (hcsv : env.csvSaveOk = false) :
    get_combined_station_data env =
      .raised (.osError "csv snapshot write failed") := by
  simp [get_combined_station_data, hi, hs, hie, hse, hm, hcsv]

/-- C6 witness: the failing-CSV environment over the healthy feeds. -/
theorem csv_write_failure_raises_witness :
    get_combined_station_data envCsvFail =
      .raised (.osError "csv snapshot write failed") :=
  csv_write_failure_raises envCsvFail infoDF statusDF mergedDF
    (by with_unfolding_all rfl) (by with_unfolding_all rfl) rfl rfl
    (by with_unfolding_all rfl) rfl

/-! ### Column bookkeeping of the normalization steps -/

theorem hasCol_addLon_ne (df : DataFrame) (x : String) (h : x ≠ "lon") :
    (addLon df).hasCol x = df.hasCol x := by
  unfold addLon
  split
  · exact DataFrame.hasCol_setCol_ne df "lon" _ x h
  · rfl

theorem hasCol_addLat_ne (df : DataFrame) (x : String) (h : x ≠ "lat") :
    (addLat df).hasCol x = df.hasCol x := by
  unfold addLat
  split
  · exact DataFrame.hasCol_setCol_ne df "lat" _ x h
  · rfl

theorem hasCol_normalize_ne (df : DataFrame) (x : String)
    (h1 : x ≠ "lon") (h2 : x ≠ "lat") :
    (normalize_coordinates df).hasCol x = df.hasCol x := by
  unfold normalize_coordinates
  rw [hasCol_addLat_ne _ _ h2, hasCol_addLon_ne _ _ h1]

theorem rows_addLon_nil {df : DataFrame} (h : df.rows = []) :
    (addLon df).rows = [] := by
  unfold addLon; split <;> simp [DataFrame.setCol, h]

theorem rows_addLat_nil {df : DataFrame} (h : df.rows = []) :
    (addLat df).rows = [] := by
  unfold addLat; split <;> simp [DataFrame.setCol, h]

theorem rows_normalize_nil {df : DataFrame} (h : df.rows = []) :
    (normalize_coordinates df).rows = [] :=
  rows_addLat_nil (rows_addLon_nil h)

theorem rows_compute_metrics_nil {df : DataFrame} (h : df.rows = []) :
    (compute_metrics df).rows = [] := by
  unfold compute_metrics; split <;> simp [DataFrame.setCol, h]

/-! ### The guarded metrics block in the pipeline -/

/-- C10: when the (successfully) merged table lacks one of the two count
columns, the metrics block leaves the frame unchanged and the pipeline
returns the merged (coordinate-normalized) table without the derived
fields, raising nothing. -/
theorem missing_count_columns_skip_metrics (env : Env) (info status merged : DataFrame)
    (hi : get_station_information env = .returned info)
    (hs : get_station_status env = .returned status)
    (hie : info.isEmpty = false) (hse : status.isEmpty = false)
    (hcsv : env.csvSaveOk = true)
    (hm : DataFrame.merge info status = .returned merged)
    (hmiss : merged.hasCol "num_bikes_available" = false ∨
             merged.hasCol "num_docks_available" = false) :
    compute_metrics (normalize_coordinates merged) =
      normalize_coordinates merged ∧
    get_combined_station_data env =
      .returned (normalize_coordinates merged) := by
  have hguard :
      ((normalize_coordinates merged).hasCol "num_bikes_available" &&
       (normalize_coordinates merged).hasCol "num_docks_available") = false := by
    rcases hmiss with h | h
    · rw [hasCol_normalize_ne merged "num_bikes_available"
        (by decide) (by decide), h, Bool.false_and]
    · rw [hasCol_normalize_ne merged "num_docks_available"
        (by decide) (by decide), h, Bool.and_false]
  have hcm : compute_metrics (normalize_coordinates merged) =
      normalize_coordinates merged := by
    unfold compute_metrics
    rw [hguard]
    rfl
  refine ⟨hcm, ?_⟩
  simp [get_combined_station_data, hi, hs, hie, hse, hcsv, hm, hcm]

/-- C10 witness: a status feed without `num_docks_available`. -/
theorem missing_count_columns_skip_metrics_witness :
    get_combined_station_data envNoDocks =
      .returned (normalize_coordinates mergedNoDocksDF) :=
  (missing_count_columns_skip_metrics envNoDocks infoDF statusNoDocksDF mergedNoDocksDF
    (by with_unfolding_all rfl) (by with_unfolding_all rfl) rfl rfl rfl
    (by with_unfolding_all rfl) (Or.inr (by with_unfolding_all rfl))).2

/-! ### The inner join -/

/-- C2 counterexample: a nonempty status feed whose entries lack
`station_id` gives two tables with disjoint key sets, yet the program
raises `KeyError` at the merge instead of returning an empty table. -/
theorem merge_inner_join_cx :
    get_station_information envNoKey = .returned infoDF ∧
    get_station_status envNoKey = .returned statusNoKeyDF ∧
    (∀ v ∈ stationIds infoDF, v ∉ stationIds statusNoKeyDF) ∧
    DataFrame.merge infoDF statusNoKeyDF = .raised (.keyError "station_id") ∧
    ¬ ∃ df : DataFrame, get_combined_station_data envNoKey = .returned df := by
  refine ⟨by with_unfolding_all rfl, by with_unfolding_all rfl,
    by with_unfolding_all decide, by with_unfolding_all rfl, ?_⟩
  intro h
  obtain ⟨df, he⟩ := h
  have hv : get_combined_station_data envNoKey =
      .raised (.keyError "station_id") := by
    with_unfolding_all rfl
  rw [hv] at he
  exact Outcome.noConfusion he

/-- C2 as amended: when both tables carry the `station_id` column the merge
succeeds, every merged row's key value (NaN keys included, which pandas
matches with each other) occurs in both inputs, disjoint key sets give an
empty merge, and the pipeline then returns a table with no rows rather than
an error.  Without the key column, pandas raises `KeyError` instead. -/
theorem merge_inner_join (info status : DataFrame) :
    (info.hasCol "station_id" = true → status.hasCol "station_id" = true →
      ∃ merged : DataFrame, DataFrame.merge info status = .returned merged) ∧
    (∀ merged : DataFrame, DataFrame.merge info status = .returned merged →
      ∀ r ∈ merged.rows, ∃ v,
        Row.get r "station_id" = some v ∧
        v ∈ stationIds info ∧ v ∈ stationIds status) ∧
    ((∀ v ∈ stationIds info, v ∉ stationIds status) →
      ∀ merged : DataFrame, DataFrame.merge info status = .returned merged →
      merged.rows = []) ∧
    (∀ env : Env, ∀ merged : DataFrame,
      get_station_information env = .returned info →
      get_station_status env = .returned status →
      info.isEmpty = false → status.isEmpty = false → env.csvSaveOk = true →
      DataFrame.merge info status = .returned merged →
      (∀ v ∈ stationIds info, v ∉ stationIds status) →
      ∃ df : DataFrame,
        get_combined_station_data env = .returned df ∧ df.rows = []) := by
  have key : ∀ merged : DataFrame, DataFrame.merge info status = .returned merged →
      ∀ r ∈ merged.rows, ∃ v,
        Row.get r "station_id" = some v ∧
        v ∈ stationIds info ∧ v ∈ stationIds status := by
    intro merged hm r hr
    unfold DataFrame.merge at hm
    split at hm
    · cases hm
      simp only [List.mem_flatMap, List.mem_map, List.mem_filter] at hr
      obtain ⟨ri, hri, rs, ⟨hrs, hmatch⟩, rfl⟩ := hr
      have hv : colVal ri "station_id" = colVal rs "station_id" := by
        simpa [joinMatch] using hmatch
      refine ⟨colVal ri "station_id", ?_, ?_, ?_⟩
      · simp [mergeRow, Row.get_cons_self]
      · exact List.mem_map_of_mem _ hri
      · rw [hv]; exact List.mem_map_of_mem _ hrs
    · exact Outcome.noConfusion hm
  have nilOf : (∀ v ∈ stationIds info, v ∉ stationIds status) →
      ∀ merged : DataFrame, DataFrame.merge info status = .returned merged →
      merged.rows = [] := by
    intro hdis merged hm
    rw [List.eq_nil_iff_forall_not_mem]
    intro r hr
    obtain ⟨v, -, hvi, hvs⟩ := key merged hm r hr
    exact hdis v hvi hvs
  refine ⟨?_, key, nilOf, ?_⟩
  · intro hki hks
    unfold DataFrame.merge
    rw [hki, hks]
    exact ⟨_, rfl⟩
  · intro env merged hi hs hie hse hcsv hm hdis
    refine ⟨compute_metrics (normalize_coordinates merged), ?_,
      rows_compute_metrics_nil (rows_normalize_nil (nilOf hdis merged hm))⟩
    simp [get_combined_station_data, hi, hs, hie, hse, hcsv, hm]

/-- C2 witness: two feeds with disjoint key sets; both the plain merge and
the full pipeline end with a row-less table. -/
theorem merge_inner_join_witness :
    DataFrame.merge dfIdA dfIdB = .returned mergedAB ∧
    mergedAB.rows = [] ∧
    ∃ df : DataFrame,
      get_combined_station_data envDisjoint = .returned df ∧ df.rows = [] :=
  ⟨by with_unfolding_all rfl,
   (merge_inner_join dfIdA dfIdB).2.2.1 (by with_unfolding_all decide) mergedAB
     (by with_unfolding_all rfl),
   (merge_inner_join infoDFA statusDFB).2.2.2 envDisjoint mergedDisjointDF
     (by with_unfolding_all rfl) (by with_unfolding_all rfl) rfl rfl rfl
     (by with_unfolding_all rfl) (by with_unfolding_all decide)⟩

/-! ### Coordinate normalization -/

theorem hasCol_addLon_lon (df : DataFrame) :
    (addLon df).hasCol "lon" = (df.hasCol "lon" || df.hasCol "longitude") := by
  unfold addLon
  cases h1 : df.hasCol "lon" <;> cases h2 : df.hasCol "longitude" <;>
    simp [h1, h2, DataFrame.hasCol_setCol_self]

theorem hasCol_addLat_lat (df : DataFrame) :
    (addLat df).hasCol "lat" = (df.hasCol "lat" || df.hasCol "latitude") := by
  unfold addLat
  cases h1 : df.hasCol "lat" <;> cases h2 : df.hasCol "latitude" <;>
    simp [h1, h2, DataFrame.hasCol_setCol_self]

theorem addLon_eq_self {df : DataFrame}
    (h : (!(df.hasCol "lon") && df.hasCol "longitude") = false) : addLon df = df := by
  unfold addLon; rw [h]; rfl

theorem addLat_eq_self {df : DataFrame}
    (h : (!(df.hasCol "lat") && df.hasCol "latitude") = false) : addLat df = df := by
  unfold addLat; rw [h]; rfl

theorem mem_addLon_rows {df : DataFrame} {r : Row} (hr : r ∈ (addLon df).rows) :
    ∃ r1 ∈ df.rows, ∀ c : String, (c == "lon") = false →
      Row.get r c = Row.get r1 c := by
  unfold addLon at hr
  split at hr
  · simp only [DataFrame.setCol, List.mem_map] at hr
    obtain ⟨r1, hr1, rfl⟩ := hr
    exact ⟨r1, hr1, fun c hc => Row.get_cons_ne _ _ _ _ hc⟩
  · exact ⟨r, hr, fun _ _ => rfl⟩

theorem mem_addLat_rows {df : DataFrame} {r : Row} (hr : r ∈ (addLat df).rows) :
    ∃ r1 ∈ df.rows, ∀ c : String, (c == "lat") = false →
      Row.get r c = Row.get r1 c := by
  unfold addLat at hr
  split at hr
  · simp only [DataFrame.setCol, List.mem_map] at hr
    obtain ⟨r1, hr1, rfl⟩ := hr
    exact ⟨r1, hr1, fun c hc => Row.get_cons_ne _ _ _ _ hc⟩
  · exact ⟨r, hr, fun _ _ => rfl⟩

theorem addLon_after_normalize (df : DataFrame) :
    addLon (addLat (addLon df)) = addLat (addLon df) := by
  apply addLon_eq_self
  rw [hasCol_addLat_ne _ _ (by decide), hasCol_addLon_lon,
    hasCol_addLat_ne _ _ (by decide), hasCol_addLon_ne _ _ (by decide)]
  cases df.hasCol "lon" <;> cases df.hasCol "longitude" <;> rfl

theorem addLat_addLat (df : DataFrame) : addLat (addLat df) = addLat df := by
  apply addLat_eq_self
  rw [hasCol_addLat_lat, hasCol_addLat_ne _ _ (by decide)]
  cases df.hasCol "lat" <;> cases df.hasCol "latitude" <;> rfl

/-- C8: normalization copies `longitude`/`latitude` into `lon`/`lat` exactly
when the canonical column is absent and the alternate present, leaves the
canonical column absent when neither is present, keeps existing canonical
cells untouched, and is idempotent. -/
theorem normalize_coordinates_spec (df : DataFrame) :
    ((df.hasCol "lon" = false ∧ df.hasCol "longitude" = true) →
      (normalize_coordinates df).hasCol "lon" = true ∧
      ∀ r ∈ (normalize_coordinates df).rows, ∃ r0 ∈ df.rows,
        Row.get r "lon" = some (colVal r0 "longitude")) ∧
    ((df.hasCol "lon" = false ∧ df.hasCol "longitude" = false) →
      (normalize_coordinates df).hasCol "lon" = false) ∧
    ((df.hasCol "lat" = false ∧ df.hasCol "latitude" = true) →
      (normalize_coordinates df).hasCol "lat" = true ∧
      ∀ r ∈ (normalize_coordinates df).rows, ∃ r0 ∈ df.rows,
        Row.get r "lat" = some (colVal r0 "latitude")) ∧
    ((df.hasCol "lat" = false ∧ df.hasCol "latitude" = false) →
      (normalize_coordinates df).hasCol "lat" = false) ∧
    (df.hasCol "lon" = true →
      ∀ r ∈ (normalize_coordinates df).rows, ∃ r0 ∈ df.rows,
        Row.get r "lon" = Row.get r0 "lon") ∧
    (df.hasCol "lat" = true →
      ∀ r ∈ (normalize_coordinates df).rows, ∃ r0 ∈ df.rows,
        Row.get r "lat" = Row.get r0 "lat") ∧
    normalize_coordinates (normalize_coordinates df) = normalize_coordinates df := by
  refine ⟨?_, ?_, ?_, ?_, ?_, ?_, ?_⟩
  · rintro ⟨hl, hg⟩
    constructor
    · rw [normalize_coordinates, hasCol_addLat_ne _ _ (by decide),
        hasCol_addLon_lon, hl, hg]
      rfl
    · intro r hr
      obtain ⟨r1, hr1, hpres⟩ := mem_addLat_rows hr
      have haddlon : addLon df = df.setCol "lon" (fun r => colVal r "longitude") := by
        unfold addLon; rw [hl, hg]; rfl
      rw [haddlon] at hr1
      simp only [DataFrame.setCol, List.mem_map] at hr1
      obtain ⟨r0, hr0, rfl⟩ := hr1
      refine ⟨r0, hr0, ?_⟩
      rw [hpres "lon" (by decide), Row.get_cons_self]
  · rintro ⟨hl, hg⟩
    rw [normalize_coordinates, hasCol_addLat_ne _ _ (by decide),
      hasCol_addLon_lon, hl, hg]
    rfl
  · rintro ⟨hl, hg⟩
    have hl' : (addLon df).hasCol "lat" = false := by
      rw [hasCol_addLon_ne _ _ (by decide)]; exact hl
    have hg' : (addLon df).hasCol "latitude" = true := by
      rw [hasCol_addLon_ne _ _ (by decide)]; exact hg
    have haddlat : addLat (addLon df) =
        (addLon df).setCol "lat" (fun r => colVal r "latitude") := by
      unfold addLat; rw [hl', hg']; rfl
    constructor
    · rw [normalize_coordinates, haddlat]
      exact DataFrame.hasCol_setCol_self _ _ _
    · intro r hr
      rw [normalize_coordinates, haddlat] at hr
      simp only [DataFrame.setCol, List.mem_map] at hr
      obtain ⟨r1, hr1, rfl⟩ := hr
      obtain ⟨r0, hr0, hpres⟩ := mem_addLon_rows hr1
      refine ⟨r0, hr0, ?_⟩
      rw [Row.get_cons_self]
      unfold colVal
      rw [hpres "latitude" (by decide)]
  · rintro ⟨hl, hg⟩
    rw [normalize_coordinates, hasCol_addLat_lat,
      hasCol_addLon_ne _ _ (by decide), hasCol_addLon_ne _ _ (by decide), hl, hg]
    rfl
  · intro hl
    have haddlon : addLon df = df := by
      apply addLon_eq_self; rw [hl]; rfl
    intro r hr
    rw [normalize_coordinates, haddlon] at hr
    obtain ⟨r0, hr0, hpres⟩ := mem_addLat_rows hr
    exact ⟨r0, hr0, hpres "lon" (by decide)⟩
  · intro hl
    have hl' : (addLon df).hasCol "lat" = true := by
      rw [hasCol_addLon_ne _ _ (by decide)]; exact hl
    have haddlat : addLat (addLon df) = addLon df := by
      apply addLat_eq_self; rw [hl']; rfl
    intro r hr
    rw [normalize_coordinates, haddlat] at hr
    obtain ⟨r0, hr0, hpres⟩ := mem_addLon_rows hr
    exact ⟨r0, hr0, hpres "lat" (by decide)⟩
  · show addLat (addLon (addLat (addLon df))) = addLat (addLon df)
    rw [addLon_after_normalize, addLat_addLat]

/-- C8 witness: a frame carrying only the alternate-named coordinates. -/
theorem normalize_coordinates_spec_witness :
    (normalize_coordinates dfLongitude).hasCol "lon" = true ∧
    (∀ r ∈ (normalize_coordinates dfLongitude).rows, ∃ r0 ∈ dfLongitude.rows,
      Row.get r "lon" = some (colVal r0 "longitude")) ∧
    normalize_coordinates (normalize_coordinates dfLongitude) =
      normalize_coordinates dfLongitude :=
  ⟨((normalize_coordinates_spec dfLongitude).1 ⟨rfl, rfl⟩).1,
   ((normalize_coordinates_spec dfLongitude).1 ⟨rfl, rfl⟩).2,
   (normalize_coordinates_spec dfLongitude).2.2.2.2.2.2⟩

end Bixi
